import Mathlib

/-!
Verification of the meeting-transcription client against its specification.

The definitions below are shallow embeddings of the TypeScript source:
- `RTState` / `addTranscriptionChunk` embed the live-transcription receiver
  of `client/src/components/meeting/RealTimeTranscription.tsx` (lines 21-37).
- `getVolume` embeds the volume computation of
  `client/src/components/meeting/AudioRecorder.tsx` (lines 86-100).
- `matchKeywords` embeds `client/src/services/keywordMatcher.ts` (lines 17-49),
  including the semantics of the JavaScript `String.prototype.split` with a
  single capturing group, word boundaries and case-insensitive alternation.
- `RecorderSt` and the step functions embed the voice-activity-detection
  state machine of `AudioRecorder.tsx`.

Machine integers do not occur: all times are milliseconds as `Nat`
(JavaScript `Date.now()` differences are non-negative in every run modelled
here, so truncated `Nat` subtraction agrees with the source), and volumes
are rationals in the unit interval.
-/

/-! ## Real-time transcription receiver (RealTimeTranscription.tsx) -/

/-- State of the `RealTimeTranscription` component: the accumulated chunk
texts in arrival order, and the `isActive` flag.  The random `id` and the
`timestamp` of a chunk play no role in any property and are omitted. -/
structure RTState where
  chunks : List String
  isActive : Bool
deriving DecidableEq, Repr

/-- Initial receiver state (`useState([])`, `useState(false)`). -/
def initRT : RTState := ⟨[], false⟩

/-- Embedding of JavaScript `String.prototype.trim`: drop whitespace from
both ends.  (Defined on the character list so that it evaluates by kernel
reduction.) -/
def jsTrim (s : String) : String :=
  String.mk
    (((s.data.dropWhile Char.isWhitespace).reverse.dropWhile
        Char.isWhitespace).reverse)

/-- Embedding of `addTranscriptionChunk` (RealTimeTranscription.tsx lines
21-37): trim the incoming text; if the trimmed text is non-empty, append it
to the chunk list and set `isActive`, otherwise leave the state unchanged. -/
def addTranscriptionChunk (s : RTState) (text : String) : RTState :=
  let trimmed := jsTrim text
  if trimmed = "" then s
  else { chunks := s.chunks ++ [trimmed], isActive := true }

/-- Deliver a list of completion texts to the receiver, in arrival order. -/
def deliverAll (s : RTState) (texts : List String) : RTState :=
  texts.foldl addTranscriptionChunk s

/-- The transcript shown by the component: the chunk texts concatenated in
arrival order. -/
def transcriptText (s : RTState) : String :=
  String.join s.chunks

/-! ## Volume computation (AudioRecorder.tsx, getVolume) -/

/-- Embedding of `getVolume` (AudioRecorder.tsx lines 86-100).  The analyzer
byte buffer is a list of byte values; with no analyzer attached the function
returns 0.  For a buffer it returns the mean of `|b - 128| / 128` over the
buffer, exactly as the source computes `sum / bufferLength`. -/
def getVolume (analyzer : Option (List Nat)) : ℚ :=
  match analyzer with
  | none => 0
  | some buf =>
      ((buf.map (fun b : Nat => |((b : ℚ) - 128)| / 128)).sum) /
        (buf.length : ℚ)

/-! ## Keyword matcher (keywordMatcher.ts) -/

/-- Result element of `matchKeywords`: a part of the input text, whether it
(case-insensitively) equals a keyword, and which keyword it matched. -/
structure KeywordMatch where
  text : String
  isKeyword : Bool
  originalKeyword : Option String
deriving DecidableEq, Repr

/-- Embedding of JavaScript `toLowerCase()` on the character level. -/
def lowerStr (s : String) : String :=
  String.mk (s.data.map Char.toLower)

/-- Word character in the sense of the JavaScript regex `\b` and `\w`
classes (no unicode flag): ASCII letters, digits and underscore. -/
def isWordChar (c : Char) : Bool :=
  c.isAlpha || c.isDigit || c == '_'

/-- Characters escaped by `keyword.replace(/[.*+?^${}()|[\]\\]/g, '\\$&')`. -/
def regexSpecials : List Char :=
  ['.', '*', '+', '?', '^', '$', '\x7b', '\x7d', '(', ')', '|', '[', ']', '\\']

/-- Escape of one character as performed by the `replace` call. -/
def escChar (c : Char) : List Char :=
  if regexSpecials.contains c then ['\\', c] else [c]

/-- Embedding of the escaping of a single keyword. -/
def escapeRegex (s : String) : String :=
  String.mk (s.data.map escChar).flatten

/-- Embedding of `keywords.map(escape).join('|')` with the exact semantics
of JavaScript `Array.prototype.join`. -/
def keywordPattern (keywords : List String) : String :=
  match keywords.map escapeRegex with
  | [] => ""
  | k :: ks => ks.foldl (fun acc kw => acc ++ "|" ++ kw) k

/-- Whether the character list `cs` has a word char at index `i`
(out-of-range counts as non-word, as at the ends of a JavaScript string). -/
def wordAt (cs : List Char) (i : Nat) : Bool :=
  match cs.get? i with
  | some c => isWordChar c
  | none => false

/-- The regex `\b` word-boundary test at position `i` of `cs`. -/
def wordBoundary (cs : List Char) (i : Nat) : Bool :=
  (if i = 0 then false else wordAt cs (i - 1)) != wordAt cs i

/-- Case-insensitive literal match of keyword `kw` at position `q` of `cs`
(the escaped keyword behaves as a literal inside the regex). -/
def matchKwAt (cs : List Char) (q : Nat) (kw : String) : Bool :=
  ((cs.drop q).take kw.length).map Char.toLower == kw.data.map Char.toLower

/-- One attempt of the split regex `\b(k1|...|kn)\b` (flags `gi`) to match
at position `q`: alternatives are tried in keyword order, each requiring
word boundaries on both sides; the captured text keeps the original case.
Returns the captured characters on success. -/
def splitMatch (keywords : List String) (cs : List Char) (q : Nat) :
    Option (List Char) :=
  if wordBoundary cs q then
    (keywords.find? fun kw =>
        matchKwAt cs q kw && wordBoundary cs (q + kw.length)).map
      (fun kw => (cs.drop q).take kw.length)
  else
    none

/-- The loop of JavaScript `String.prototype.split` with a separator regex
containing one capturing group: scan positions `q`; on a match starting at
`q` with end `e ≠ p`, emit the slice `cs[p..q)` and the captured separator,
and continue from `e`; an empty match at the current slice start only
advances the scan.  The `fuel` argument makes the recursion structural; on
exhaustion the loop closes exactly like the normal exit, so the emitted
parts always concatenate to the whole input. -/
def splitLoop (keywords : List String) (cs : List Char) :
    Nat → Nat → Nat → List String → List String
  | 0, p, _, acc => acc ++ [String.mk (cs.drop p)]
  | fuel + 1, p, q, acc =>
    if q < cs.length then
      match splitMatch keywords cs q with
      | none => splitLoop keywords cs fuel p (q + 1) acc
      | some cap =>
          let e := q + cap.length
          if e = p then
            splitLoop keywords cs fuel p (q + 1) acc
          else
            splitLoop keywords cs fuel e e
              (acc ++ [String.mk ((cs.drop p).take (q - p)), String.mk cap])
    else
      acc ++ [String.mk (cs.drop p)]

/-- Embedding of `matchKeywords` (keywordMatcher.ts lines 17-49): early
return for empty keyword list or empty text; early return when the joined
escaped pattern is the empty string; otherwise split the text by the
keyword regex, drop empty parts, and label each remaining part by a
case-insensitive lookup among the keywords. -/
def matchKeywords (keywords : List String) (text : String) :
    List KeywordMatch :=
  if keywords.isEmpty || text = "" then
    [⟨text, false, none⟩]
  else if keywordPattern keywords = "" then
    [⟨text, false, none⟩]
  else
    let parts := splitLoop keywords text.data (2 * text.data.length + 2) 0 0 []
    (parts.filter fun part => part.length > 0).map fun part =>
      let matchingKeyword := keywords.find? fun kw => lowerStr kw = lowerStr part
      ⟨part, matchingKeyword.isSome, matchingKeyword⟩

/-! ## Voice-activity-detection state machine (AudioRecorder.tsx) -/

/-- The three states of the capture machine (`RecordingState` enum). -/
inductive RecordingState where
  | waiting
  | recording
  | confirmingEnd
deriving DecidableEq, Repr

/-- Configuration of the machine (the `VAD_CONFIG` object). -/
structure VadConfig where
  SILENCE_THRESHOLD : ℚ
  SPEECH_START_DELAY_MS : Nat
  SPEECH_END_DELAY_MS : Nat
  MIN_CHUNK_DURATION_MS : Nat
  MAX_CHUNK_DURATION_MS : Nat
  CHECK_INTERVAL_MS : Nat

/-- The constants of AudioRecorder.tsx lines 34-41.  The source threshold
is the literal `0.01`; it is embedded as the rational 1/100 (written with
`mkRat` so that comparisons evaluate inside the kernel). -/
def VAD_CONFIG : VadConfig :=
  { SILENCE_THRESHOLD := mkRat 1 100
    SPEECH_START_DELAY_MS := 200
    SPEECH_END_DELAY_MS := 1000
    MIN_CHUNK_DURATION_MS := 1000
    MAX_CHUNK_DURATION_MS := 30000
    CHECK_INTERVAL_MS := 100 }

/-- A segment successfully sent over the websocket: the sequence number
assigned from `chunkCountRef`, the `speechStartTimeRef` value of its
recording, and the `recordingDuration` computed when the recording was
stopped (so its nominal end time is `startTime + durationMs`). -/
structure Segment where
  seq : Nat
  startTime : Nat
  durationMs : Nat
deriving DecidableEq, Repr

/-- State of the `AudioRecorder` component.  Refs and React state of the
source map to fields; `recorderActive` models `mediaRecorder.state` being
distinct from `'inactive'`; `onstopSet` models an `onstop` handler having
been attached by `stopCurrentRecording` and not yet fired;
`pendingDuration` is the `recordingDuration` captured when
`stopCurrentRecording` was called; `lastStopByMax` is ghost instrumentation
recording which branch of the VAD loop triggered the last stop (the source
logs distinct messages on the two branches but stores nothing).

`isRecording` is a `useState` value, not a ref: the VAD interval callback,
`stopCurrentRecording` and the `onstop` handler it attaches are all
closures from the render in which `startRecording` ran, so the
`isRecording` they read is the value of that render, not the live one.
`capturedIsRecording` models that captured value; `isRecording` models the
live React state (written by `setIsRecording`, read by the UI). -/
structure RecorderSt where
  vadState : RecordingState
  isRecording : Bool
  capturedIsRecording : Bool
  intervalActive : Bool
  chunkCount : Nat
  consecutiveSpeechTime : Nat
  consecutiveSilenceTime : Nat
  speechStartTime : Nat
  lastSpeechTime : Nat
  recorderActive : Bool
  onstopSet : Bool
  pendingDuration : Nat
  lastStopByMax : Bool
  emitted : List Segment
deriving DecidableEq, Repr

/-- State of the component before any session. -/
def initSt : RecorderSt :=
  { vadState := .waiting
    isRecording := false
    capturedIsRecording := false
    intervalActive := false
    chunkCount := 0
    consecutiveSpeechTime := 0
    consecutiveSilenceTime := 0
    speechStartTime := 0
    lastSpeechTime := 0
    recorderActive := false
    onstopSet := false
    pendingDuration := 0
    lastStopByMax := false
    emitted := [] }

/-- Embedding of `sendAudioChunk` (AudioRecorder.tsx lines 66-79).  If the
websocket is not open the function returns without touching the counter.
Otherwise `chunkCountRef.current++` runs first; the subsequent
`websocket.send` either succeeds (the segment is emitted) or throws (the
error is caught and logged: nothing is emitted, but the counter increment
has already happened). -/
def sendAudioChunk (s : RecorderSt) (wsOpen sendOk : Bool)
    (startTime duration : Nat) : RecorderSt :=
  if !wsOpen then s
  else
    let chunkIndex := s.chunkCount
    let s' := { s with chunkCount := s.chunkCount + 1 }
    if sendOk then
      { s' with emitted := s'.emitted ++ [⟨chunkIndex, startTime, duration⟩] }
    else s'

/-- Embedding of `startNewRecording` (lines 115-129): a fresh recorder with
no `onstop` handler, and both time refs set to the present moment. -/
def startNewRecording (s : RecorderSt) (now : Nat) : RecorderSt :=
  { s with recorderActive := true
           onstopSet := false
           speechStartTime := now
           lastSpeechTime := now }

/-- Embedding of the synchronous part of `stopCurrentRecording` (lines
131-171): if no recording is in flight, resolve immediately; otherwise
capture `recordingDuration`, attach the `onstop` handler and stop the
recorder.  The handler body runs later, at a `finalize` event. -/
def stopCurrentRecording (s : RecorderSt) (now : Nat) : RecorderSt :=
  if !s.recorderActive then s
  else
    { s with pendingDuration := now - s.speechStartTime
             onstopSet := true
             recorderActive := false }

/-- Embedding of the `onstop` handler body (lines 140-167), fired when the
recorder delivers its final data: send the blob if the captured duration
meets `MIN_CHUNK_DURATION_MS`, else skip it; then sample the volume — if it
is above the silence threshold and the `isRecording` the closure captured
at render time is true, re-enter `RECORDING_SPEECH` with a fresh recording,
otherwise return to `WAITING_FOR_SPEECH` and reset both accumulators.
The handler reads the stale render-time `isRecording`
(`capturedIsRecording`, false in every real session), not the live one, so
the re-enter branch is dead code in the program. -/
def finalizeStep (s : RecorderSt) (now : Nat) (volume : ℚ)
    (wsOpen sendOk : Bool) : RecorderSt :=
  if !s.onstopSet then s
  else
    let s₁ := { s with onstopSet := false }
    let s₂ :=
      if s₁.pendingDuration ≥ VAD_CONFIG.MIN_CHUNK_DURATION_MS then
        sendAudioChunk s₁ wsOpen sendOk s₁.speechStartTime s₁.pendingDuration
      else s₁
    let isSpeech := volume > VAD_CONFIG.SILENCE_THRESHOLD
    if isSpeech ∧ s₂.capturedIsRecording then
      startNewRecording { s₂ with vadState := .recording } now
    else
      { s₂ with vadState := .waiting
                consecutiveSpeechTime := 0
                consecutiveSilenceTime := 0 }

/-- Embedding of one run of the VAD interval callback (lines 208-274) at
time `now` with the sampled `volume`.  When the interval has been cleared
the callback no longer runs. -/
def tickStep (s : RecorderSt) (now : Nat) (volume : ℚ) : RecorderSt :=
  if !s.intervalActive then s
  else
    let isSpeech := volume > VAD_CONFIG.SILENCE_THRESHOLD
    match s.vadState with
    | .waiting =>
        if isSpeech then
          let s₁ := { s with
            consecutiveSpeechTime :=
              s.consecutiveSpeechTime + VAD_CONFIG.CHECK_INTERVAL_MS
            consecutiveSilenceTime := 0 }
          if s₁.consecutiveSpeechTime ≥ VAD_CONFIG.SPEECH_START_DELAY_MS then
            startNewRecording { s₁ with vadState := .recording } now
          else s₁
        else
          { s with consecutiveSpeechTime := 0, consecutiveSilenceTime := 0 }
    | .recording =>
        let s₁ :=
          if isSpeech then
            { s with lastSpeechTime := now, consecutiveSilenceTime := 0 }
          else
            { s with consecutiveSilenceTime :=
                s.consecutiveSilenceTime + VAD_CONFIG.CHECK_INTERVAL_MS }
        let recordingDuration := now - s₁.speechStartTime
        let silenceDuration := now - s₁.lastSpeechTime
        if silenceDuration ≥ VAD_CONFIG.SPEECH_END_DELAY_MS then
          stopCurrentRecording
            { s₁ with vadState := .confirmingEnd, lastStopByMax := false } now
        else if recordingDuration ≥ VAD_CONFIG.MAX_CHUNK_DURATION_MS then
          stopCurrentRecording
            { s₁ with vadState := .confirmingEnd, lastStopByMax := true } now
        else s₁
    | .confirmingEnd => s

/-- Embedding of the reset performed by a successful `startRecording`
(lines 184-208): session flag on, counters reset, interval started.  The
VAD interval callback created here — and through it the `onstop` handler —
closes over the `isRecording` value of the render that called
`startRecording`, i.e. its value before `setIsRecording(true)` takes
effect; `capturedIsRecording` records that value.  Since the Start button
renders only while `isRecording` is false, the captured value is false in
every real session.  The emitted-segment history is not part of the
component and is kept so that one value can describe a whole run. -/
def startRecording (s : RecorderSt) : RecorderSt :=
  { s with isRecording := true
           capturedIsRecording := s.isRecording
           vadState := .waiting
           chunkCount := 0
           consecutiveSpeechTime := 0
           consecutiveSilenceTime := 0
           intervalActive := true }

/-- Embedding of `stopRecording` (lines 283-307): clear the interval, call
`mediaRecorder.stop()` on an active recorder — note that `startNewRecording`
never attaches an `onstop` handler, so this stop fires no handler and the
collected chunks are dropped — close the audio context, clear the session
flag and return to `WAITING_FOR_SPEECH`.  A pending handler attached
earlier by `stopCurrentRecording` is not removed. -/
def stopRecording (s : RecorderSt) : RecorderSt :=
  { s with intervalActive := false
           recorderActive := false
           isRecording := false
           vadState := .waiting }

/-- External events driving the recorder: a timer tick with the sampled
volume, the asynchronous firing of a recorder `onstop` handler (carrying
the volume sampled inside the handler and the websocket outcome of the
send it may perform), and the user pressing stop. -/
inductive RecEvent where
  | tick (now : Nat) (volume : ℚ)
  | finalize (now : Nat) (volume : ℚ) (wsOpen sendOk : Bool)
  | stopCapture
deriving DecidableEq, Repr

/-- One event step. -/
def stepEvent (s : RecorderSt) (e : RecEvent) : RecorderSt :=
  match e with
  | .tick now volume => tickStep s now volume
  | .finalize now volume wsOpen sendOk => finalizeStep s now volume wsOpen sendOk
  | .stopCapture => stopRecording s

/-- Run a list of events from a state. -/
def runEvents (s : RecorderSt) (es : List RecEvent) : RecorderSt :=
  es.foldl stepEvent s

/-- Ticks every 100 ms starting at `t0`, all with the same volume. -/
def ticksFrom (t0 n : Nat) (vol : ℚ) : List RecEvent :=
  (List.range n).map fun i => .tick (t0 + 100 * i) vol

/-- Running an event list splits along append. -/
lemma runEvents_append (s : RecorderSt) (as bs : List RecEvent) :
    runEvents s (as ++ bs) = runEvents (runEvents s as) bs := by
  simp [runEvents, List.foldl_append]

/-- The volume 0.5, comfortably above the silence threshold. -/
def vHalf : ℚ := mkRat 1 2

/-! Concrete scenario for the 45-second continuous-speech run, in phases so
that each phase can be evaluated by the kernel on its own: speech ticks
from t=100ms to t=45000ms, the recorder finalization at t=30200ms (where
the max-duration split happens), silence ticks from t=45100ms, and the
final finalization at t=46000ms. -/

/-- Speech ticks t=100..12000. -/
def c5P1 : List RecEvent := ticksFrom 100 120 vHalf

/-- Speech ticks t=12100..24000. -/
def c5P2 : List RecEvent := ticksFrom 12100 120 vHalf

/-- Speech ticks t=24100..30200; the tick at t=30200 reaches the
30000 ms maximum duration and stops the first recording. -/
def c5P3 : List RecEvent := ticksFrom 24100 62 vHalf

/-- The first recorder finalization, with speech still ongoing. -/
def c5P4 : List RecEvent := [.finalize 30200 vHalf true true]

/-- Speech ticks t=30300..42200; the machine is back in
`WAITING_FOR_SPEECH` after the finalize, so the second recording starts
only at t=30400, after 200 ms of renewed sustained speech. -/
def c5P5 : List RecEvent := ticksFrom 30300 120 vHalf

/-- Speech ticks t=42300..45000 (speech ends at t=45000). -/
def c5P6 : List RecEvent := ticksFrom 42300 28 vHalf

/-- Silence ticks t=45100..46000; the tick at t=46000 reaches 1000 ms of
silence and stops the second recording. -/
def c5P7 : List RecEvent := ticksFrom 45100 10 0

/-- The second recorder finalization, in silence. -/
def c5P8 : List RecEvent := [.finalize 46000 0 true true]

/-- Continuous speech lasting 45 s, then silence: the whole event run. -/
def c5Trace : List RecEvent :=
  c5P1 ++ (c5P2 ++ (c5P3 ++ (c5P4 ++ (c5P5 ++ (c5P6 ++ (c5P7 ++ c5P8))))))

/-- State after `c5P1`: recording since t=200. -/
def c5S1 : RecorderSt :=
  { vadState := .recording
    isRecording := true
    capturedIsRecording := false
    intervalActive := true
    chunkCount := 0
    consecutiveSpeechTime := 200
    consecutiveSilenceTime := 0
    speechStartTime := 200
    lastSpeechTime := 12000
    recorderActive := true
    onstopSet := false
    pendingDuration := 0
    lastStopByMax := false
    emitted := [] }

/-- State after `c5P2`. -/
def c5S2 : RecorderSt :=
  { c5S1 with lastSpeechTime := 24000 }

/-- State after `c5P3`: first recording stopped on the max-duration path,
finalization pending with the captured duration 30000 ms. -/
def c5S3 : RecorderSt :=
  { c5S1 with
    vadState := .confirmingEnd
    lastSpeechTime := 30200
    recorderActive := false
    onstopSet := true
    pendingDuration := 30000
    lastStopByMax := true }

/-- State after `c5P4`: segment 0 emitted, but the restart branch is dead
(the handler's captured `isRecording` is false), so the machine is back in
`WAITING_FOR_SPEECH` with the accumulators reset and no recorder running. -/
def c5S4 : RecorderSt :=
  { c5S3 with
    vadState := .waiting
    chunkCount := 1
    consecutiveSpeechTime := 0
    onstopSet := false
    emitted := [⟨0, 200, 30000⟩] }

/-- State after `c5P5`: the second recording runs since t=30400. -/
def c5S5 : RecorderSt :=
  { c5S4 with
    vadState := .recording
    consecutiveSpeechTime := 200
    speechStartTime := 30400
    lastSpeechTime := 42200
    recorderActive := true }

/-- State after `c5P6`. -/
def c5S6 : RecorderSt :=
  { c5S5 with lastSpeechTime := 45000 }

/-- State after `c5P7`: second recording stopped by sustained silence. -/
def c5S7 : RecorderSt :=
  { c5S6 with
    vadState := .confirmingEnd
    consecutiveSilenceTime := 1000
    recorderActive := false
    onstopSet := true
    pendingDuration := 15600
    lastStopByMax := false }

/-- Final state: both segments emitted, the second starting 200 ms after
the first one's nominal end. -/
def c5Final : RecorderSt :=
  { c5S7 with
    vadState := .waiting
    chunkCount := 2
    consecutiveSpeechTime := 0
    consecutiveSilenceTime := 0
    onstopSet := false
    emitted := [⟨0, 200, 30000⟩, ⟨1, 30400, 15600⟩] }

/-- A run in which the first send throws inside the websocket layer:
speech t=100..200 starts a recording, silence t=300..1200 stops it after
exactly 1000 ms; its finalization at t=1200 has `sendOk = false`.  A second
identical segment follows whose send succeeds. -/
def c3CexTrace : List RecEvent :=
  [.tick 100 vHalf, .tick 200 vHalf]
    ++ ticksFrom 300 10 0
    ++ [.finalize 1200 0 true false]
    ++ [.tick 1300 vHalf, .tick 1400 vHalf]
    ++ ticksFrom 1500 10 0
    ++ [.finalize 2400 0 true true]

/-- A run in which the max-duration path stops the first recording at
t=30200 while the speaker keeps talking: the finalize event carries volume
0.5, well above the threshold. -/
def c6CexTrace : List RecEvent :=
  c5P1 ++ (c5P2 ++ (c5P3 ++ c5P4))

/-- A run in which the user presses stop at t=5000 while a recording that
started at t=200 is still in flight (4800 ms of speech recorded, well above
the 1000 ms minimum). -/
def c8CexTrace : List RecEvent :=
  [.tick 100 vHalf, .tick 200 vHalf]
    ++ ticksFrom 300 48 vHalf
    ++ [.stopCapture]

/-- Whether an event's websocket send (if any) succeeds. -/
def sendsOk (e : RecEvent) : Bool :=
  match e with
  | .finalize _ _ _ sendOk => sendOk
  | _ => true

/-- The per-session emission invariant: the emitted segments carry exactly
the sequence numbers `0, 1, ..., chunkCount - 1` in order. -/
def SeqInv (s : RecorderSt) : Prop :=
  s.emitted.map Segment.seq = List.range s.chunkCount

/-- A pending finalization of an 800 ms segment, for the min-duration
filter. -/
def c4St : RecorderSt :=
  { initSt with
    vadState := .confirmingEnd
    isRecording := true
    intervalActive := true
    speechStartTime := 1000
    lastSpeechTime := 1500
    onstopSet := true
    pendingDuration := 800 }

/-! ## Properties of the transcription receiver -/

/-- The receiver accumulates, after any sequence of deliveries, exactly the
non-empty trimmed texts in arrival order. -/
lemma deliverAll_chunks (texts : List String) :
    ∀ s : RTState, (deliverAll s texts).chunks =
      s.chunks ++ (texts.map jsTrim).filter (fun t => t != "") := by
  induction texts with
  | nil => intro s; simp [deliverAll]
  | cons t ts ih =>
      intro s
      show (deliverAll (addTranscriptionChunk s t) ts).chunks = _
      rw [ih]
      by_cases h : jsTrim t = "" <;> simp [addTranscriptionChunk, h]

/-- Claim C1, counterexample: delivering the completions of segments 0,1,2
(texts "A ", "B ", "C ") in the order 2,0,1 means the receiver gets the
texts "C ", "A ", "B " in that order; the accumulated transcript is "CAB",
not "A B C " — the receiver has no sequence numbers, no `totalCompleted`
and no `pendingResults`, and applies no reordering. -/
theorem c1_counterexample :
    transcriptText (deliverAll initRT ["C ", "A ", "B "]) ≠ "A B C " ∧
    transcriptText (deliverAll initRT ["C ", "A ", "B "]) = "CAB" ∧
    (deliverAll initRT ["C ", "A ", "B "]).chunks.length = 3 := by
  decide

/-- Claim C1 (amended): after completion notifications are delivered, the
receiver's state holds one chunk per non-empty trimmed text, in arrival
order (not sequence-number order); in particular delivering completions
2,0,1 with texts "A ","B ","C " yields the chunk texts ["C","A","B"], a
chunk count of 3, and the transcript "CAB". -/
theorem c1_arrival_order :
    (∀ texts : List String,
      (deliverAll initRT texts).chunks =
        (texts.map jsTrim).filter (fun t => t != "")) ∧
    (deliverAll initRT ["C ", "A ", "B "]).chunks = ["C", "A", "B"] ∧
    (deliverAll initRT ["C ", "A ", "B "]).chunks.length = 3 ∧
    transcriptText (deliverAll initRT ["C ", "A ", "B "]) = "CAB" :=
  ⟨fun texts => by simpa using deliverAll_chunks texts initRT,
    by decide, by decide, by decide⟩

/-- Claim C2, counterexample: applying the same completion text "hello"
twice is not idempotent — the state after the second application differs
from the state after the first, and the text appears twice. -/
theorem c2_counterexample :
    addTranscriptionChunk (addTranscriptionChunk initRT "hello") "hello" ≠
      addTranscriptionChunk initRT "hello" ∧
    (addTranscriptionChunk (addTranscriptionChunk initRT "hello") "hello").chunks =
      ["hello", "hello"] := by
  decide

/-- Claim C2 (amended): the receiver performs no duplicate suppression:
applying a completion whose trimmed text is non-empty twice appends the
trimmed text twice, so the chunk count grows by two and the text appears
twice. -/
theorem c2_duplicate_appended (s : RTState) (t : String) (h : ¬ jsTrim t = "") :
    (addTranscriptionChunk (addTranscriptionChunk s t) t).chunks =
      s.chunks ++ [jsTrim t, jsTrim t] := by
  simp [addTranscriptionChunk, h]

/-- Witness for `c2_duplicate_appended` at the concrete text "hello". -/
theorem c2_duplicate_appended_witness :
    ¬ jsTrim "hello" = "" ∧
    (addTranscriptionChunk (addTranscriptionChunk initRT "hello") "hello").chunks =
      initRT.chunks ++ [jsTrim "hello", jsTrim "hello"] :=
  ⟨by decide, c2_duplicate_appended initRT "hello" (by decide)⟩

/-! ## Properties of the capture state machine -/

/-- Claim C4: a finalized segment whose captured duration is below
`MIN_CHUNK_DURATION_MS` is discarded silently — nothing is emitted and the
sequence counter is untouched. -/
theorem c4_short_segment_discarded (s : RecorderSt) (now : Nat) (volume : ℚ)
    (wsOpen sendOk : Bool)
    (h : s.pendingDuration < VAD_CONFIG.MIN_CHUNK_DURATION_MS) :
    (finalizeStep s now volume wsOpen sendOk).emitted = s.emitted ∧
    (finalizeStep s now volume wsOpen sendOk).chunkCount = s.chunkCount := by
  have h' : ¬ VAD_CONFIG.MIN_CHUNK_DURATION_MS ≤ s.pendingDuration :=
    Nat.not_le.mpr h
  by_cases ho : s.onstopSet <;>
    simp only [finalizeStep, ho, Bool.not_true, Bool.not_false] <;>
    simp [startNewRecording, h'] <;>
    split <;> simp [startNewRecording]

/-- Witness for `c4_short_segment_discarded`: an 800 ms segment. -/
theorem c4_short_segment_discarded_witness :
    c4St.pendingDuration < VAD_CONFIG.MIN_CHUNK_DURATION_MS ∧
    (finalizeStep c4St 1800 0 true true).emitted = c4St.emitted ∧
    (finalizeStep c4St 1800 0 true true).chunkCount = c4St.chunkCount :=
  ⟨by decide, (c4_short_segment_discarded c4St 1800 0 true true (by decide)).1,
    (c4_short_segment_discarded c4St 1800 0 true true (by decide)).2⟩

/-- Claim C8 (amended): `stopRecording` clears the interval, stops the
recorder and resets the state, but attaches no finalize handler: the
segment being recorded at that moment is dropped — nothing is emitted and
the counter is untouched, regardless of the segment's duration. -/
theorem c8_stop_discards_inflight (s : RecorderSt)
    (_h : s.recorderActive = true) :
    (stopRecording s).emitted = s.emitted ∧
    (stopRecording s).chunkCount = s.chunkCount ∧
    (stopRecording s).recorderActive = false ∧
    (stopRecording s).intervalActive = false ∧
    (stopRecording s).isRecording = false ∧
    (stopRecording s).onstopSet = s.onstopSet ∧
    (stopRecording s).vadState = RecordingState.waiting := by
  simp [stopRecording]

/-- Witness for `c8_stop_discards_inflight` on an in-flight recording. -/
theorem c8_stop_discards_inflight_witness :
    c5S1.recorderActive = true ∧
    (stopRecording c5S1).emitted = c5S1.emitted ∧
    (stopRecording c5S1).intervalActive = false :=
  ⟨by decide, (c8_stop_discards_inflight c5S1 (by decide)).1,
    (c8_stop_discards_inflight c5S1 (by decide)).2.2.2.1⟩

/-- The interval tick never touches the emitted list or the counter. -/
lemma tickStep_emitted (s : RecorderSt) (now : Nat) (volume : ℚ) :
    (tickStep s now volume).emitted = s.emitted ∧
    (tickStep s now volume).chunkCount = s.chunkCount := by
  rcases hv : s.vadState <;>
    simp only [tickStep, hv, startNewRecording, stopCurrentRecording] <;>
    split_ifs <;> simp

/-- A finalization whose send succeeds preserves the sequencing invariant:
either nothing is emitted, or the next counter value is emitted and the
counter advances by one. -/
lemma finalizeStep_SeqInv (s : RecorderSt) (now : Nat) (volume : ℚ)
    (wsOpen : Bool) (hInv : SeqInv s) :
    SeqInv (finalizeStep s now volume wsOpen true) := by
  unfold SeqInv at *
  by_cases ho : s.onstopSet <;>
    simp only [finalizeStep, ho, sendAudioChunk, startNewRecording,
      Bool.not_true, Bool.not_false] <;>
    split_ifs <;>
    simp_all [List.range_succ]

/-- `stopRecording` never touches the emitted list or the counter. -/
lemma stopRecording_emitted (s : RecorderSt) :
    (stopRecording s).emitted = s.emitted ∧
    (stopRecording s).chunkCount = s.chunkCount := by
  simp [stopRecording]

/-- The sequencing invariant is preserved by every event whose send (if
any) succeeds. -/
lemma runEvents_SeqInv (es : List RecEvent) :
    ∀ s : RecorderSt, (∀ e ∈ es, sendsOk e = true) → SeqInv s →
      SeqInv (runEvents s es) := by
  induction es with
  | nil => intro s _ hs; exact hs
  | cons e es ih =>
      intro s hok hs
      show SeqInv (runEvents (stepEvent s e) es)
      refine ih _ (fun e' he' => hok e' (List.mem_cons_of_mem e he')) ?_
      cases e with
      | tick now v =>
          have h := tickStep_emitted s now v
          unfold SeqInv at *
          simp only [stepEvent, h.1, h.2]
          exact hs
      | finalize now v w ok =>
          have hok' : ok = true := hok _ (List.mem_cons_self _ _)
          subst hok'
          exact finalizeStep_SeqInv s now v w hs
      | stopCapture =>
          have h := stopRecording_emitted s
          unfold SeqInv at *
          simp only [stepEvent, h.1, h.2]
          exact hs

set_option maxRecDepth 20000 in
/-- Claim C3, counterexample: a run in which a websocket `send` throws.
The first recording (t=200..1200, duration exactly 1000 ms) passes the
minimum-duration check; `chunkCountRef.current++` runs before the failing
`send`, so the counter advances although no segment is emitted.  The second
segment is then emitted with sequence number 1 — the 0-th emitted segment
of the session does not carry sequence number 0, and the counter (2) was
incremented once without an emission. -/
theorem c3_counterexample :
    (runEvents (startRecording initSt) c3CexTrace).emitted.map Segment.seq =
      [1] ∧
    (runEvents (startRecording initSt) c3CexTrace).chunkCount = 2 ∧
    (runEvents (startRecording initSt) c3CexTrace).emitted.length = 1 := by
  decide

/-- Claim C3 (amended): within a single capture session the counter starts
at 0; a too-short segment or a closed websocket leaves it untouched, and in
any run in which every attempted websocket send succeeds, the emitted
segments carry exactly the consecutive sequence numbers 0..n-1 in emission
order (so the k-th emitted segment has sequence number k) and the counter
equals the number of emitted segments.  (When a send throws, the counter is
still incremented, leaving a gap.) -/
theorem c3_consecutive_sequence_numbers (es : List RecEvent)
    (h : ∀ e ∈ es, sendsOk e = true) :
    (runEvents (startRecording initSt) es).emitted.map Segment.seq =
      List.range ((runEvents (startRecording initSt) es).chunkCount) ∧
    (runEvents (startRecording initSt) es).emitted.length =
      (runEvents (startRecording initSt) es).chunkCount := by
  have h0 : SeqInv (startRecording initSt) := by
    simp [SeqInv, startRecording, initSt]
  have hInv := runEvents_SeqInv es (startRecording initSt) h h0
  refine ⟨hInv, ?_⟩
  have := congrArg List.length hInv
  simpa using this

/-- A small all-sends-succeed run: one 1000 ms segment, emitted. -/
def c3WitTrace : List RecEvent :=
  [.tick 100 vHalf, .tick 200 vHalf]
    ++ ticksFrom 300 10 0
    ++ [.finalize 1200 0 true true]

set_option maxRecDepth 20000 in
/-- Witness for `c3_consecutive_sequence_numbers` on `c3WitTrace`. -/
theorem c3_consecutive_sequence_numbers_witness :
    (∀ e ∈ c3WitTrace, sendsOk e = true) ∧
    (runEvents (startRecording initSt) c3WitTrace).emitted.map Segment.seq =
      List.range ((runEvents (startRecording initSt) c3WitTrace).chunkCount) ∧
    (runEvents (startRecording initSt) c3WitTrace).emitted.length =
      (runEvents (startRecording initSt) c3WitTrace).chunkCount :=
  ⟨by decide, (c3_consecutive_sequence_numbers c3WitTrace (by decide)).1,
    (c3_consecutive_sequence_numbers c3WitTrace (by decide)).2⟩

/-! Evaluation of the 45-second continuous-speech run, in phases. -/

set_option maxRecDepth 40000 in
lemma c5_run1 : runEvents (startRecording initSt) c5P1 = c5S1 := by decide

set_option maxRecDepth 40000 in
lemma c5_run2 : runEvents c5S1 c5P2 = c5S2 := by decide

set_option maxRecDepth 40000 in
lemma c5_run3 : runEvents c5S2 c5P3 = c5S3 := by decide

lemma c5_run4 : runEvents c5S3 c5P4 = c5S4 := by decide

set_option maxRecDepth 40000 in
lemma c5_run5 : runEvents c5S4 c5P5 = c5S5 := by decide

set_option maxRecDepth 40000 in
lemma c5_run6 : runEvents c5S5 c5P6 = c5S6 := by decide

set_option maxRecDepth 20000 in
lemma c5_run7 : runEvents c5S6 c5P7 = c5S7 := by decide

lemma c5_run8 : runEvents c5S7 c5P8 = c5Final := by decide

/-- The whole 45-second run evaluated. -/
lemma c5_run : runEvents (startRecording initSt) c5Trace = c5Final := by
  show runEvents (startRecording initSt)
      (c5P1 ++ (c5P2 ++ (c5P3 ++ (c5P4 ++ (c5P5 ++ (c5P6 ++ (c5P7 ++ c5P8))))))) =
    c5Final
  rw [runEvents_append, c5_run1, runEvents_append, c5_run2,
    runEvents_append, c5_run3, runEvents_append, c5_run4,
    runEvents_append, c5_run5, runEvents_append, c5_run6,
    runEvents_append, c5_run7, c5_run8]

/-- Claim C5, counterexample: continuous speech lasting 45 s (volume 0.5
sampled every 100 ms from t=100 to t=45000, silence afterwards) yields
segments (seq 0, start 200, 30000 ms) and (seq 1, start 30400, 15600 ms):
the first segment's nominal end time is 30200 but the second starts at
30400, so there IS a gap.  The immediate-restart branch of the `onstop`
handler is dead (it reads the stale render-time `isRecording`, which is
false), so after the max-duration stop the machine returns to
`WAITING_FOR_SPEECH` and needs 200 ms of renewed sustained speech before
recording again. -/
theorem c5_counterexample :
    (runEvents (startRecording initSt) c5Trace).emitted =
      [⟨0, 200, 30000⟩, ⟨1, 30400, 15600⟩] ∧
    ¬ List.Chain' (fun a b : Segment =>
        a.startTime + a.durationMs = b.startTime)
      (runEvents (startRecording initSt) c5Trace).emitted := by
  rw [c5_run]
  refine ⟨by decide, ?_⟩
  show ¬ List.Chain' _ [(⟨0, 200, 30000⟩ : Segment), ⟨1, 30400, 15600⟩]
  simp [List.chain'_cons, List.chain'_singleton]

/-- Claim C5 (amended): continuous speech lasting 45 s with the 30000 ms
maximum produces exactly two submitted segments with consecutive sequence
numbers 0 and 1, but with a gap of `SPEECH_START_DELAY_MS` (200 ms)
between the first segment's nominal end time and the second segment's
start time: the stale-closure restart check sends the machine back to
`WAITING_FOR_SPEECH`, and the second recording starts only after 200 ms of
renewed sustained speech. -/
theorem c5_two_segments_with_gap :
    (runEvents (startRecording initSt) c5Trace).emitted =
      [⟨0, 200, 30000⟩, ⟨1, 30400, 15600⟩] ∧
    (runEvents (startRecording initSt) c5Trace).emitted.map Segment.seq =
      [0, 1] ∧
    (runEvents (startRecording initSt) c5Trace).emitted.length = 2 ∧
    List.Chain' (fun a b : Segment =>
        b.seq = a.seq + 1 ∧
        a.startTime + a.durationMs + VAD_CONFIG.SPEECH_START_DELAY_MS =
          b.startTime)
      (runEvents (startRecording initSt) c5Trace).emitted := by
  rw [c5_run]
  refine ⟨by decide, by decide, by decide, ?_⟩
  show List.Chain' _ [(⟨0, 200, 30000⟩ : Segment), ⟨1, 30400, 15600⟩]
  simp [List.chain'_cons, List.chain'_singleton, VAD_CONFIG]

/-- The max-path run up to and including its finalize, evaluated. -/
lemma c6_run : runEvents (startRecording initSt) c6CexTrace = c5S4 := by
  show runEvents (startRecording initSt)
      (c5P1 ++ (c5P2 ++ (c5P3 ++ c5P4))) = c5S4
  rw [runEvents_append, c5_run1, runEvents_append, c5_run2,
    runEvents_append, c5_run3, c5_run4]

/-- Claim C6, counterexample: the stop at t=30200 was triggered by the
max-duration path (`lastStopByMax = true`) and the volume at the `onstop`
callback is 0.5, above the threshold — the claim says the machine must
immediately re-enter `RECORDING_SPEECH` with a fresh recording.  It does
not: the handler's `isRecording` is the stale value captured at render
time (false), so the machine is in `WAITING_FOR_SPEECH` with no recorder
running. -/
theorem c6_counterexample :
    (runEvents (startRecording initSt) c6CexTrace).lastStopByMax = true ∧
    (runEvents (startRecording initSt) c6CexTrace).vadState =
      RecordingState.waiting ∧
    (runEvents (startRecording initSt) c6CexTrace).recorderActive = false ∧
    (runEvents (startRecording initSt) c6CexTrace).emitted =
      [⟨0, 200, 30000⟩] := by
  rw [c6_run]
  exact ⟨by decide, by decide, by decide, by decide⟩

/-- Claim C6 (amended): when the recorder finalizes, the machine NEVER
immediately re-enters `RECORDING_SPEECH`: the restart branch tests the
`isRecording` captured by the `onstop` closure at render time, which is
false throughout every real session, so whichever path triggered the stop
and whatever the current volume is, the machine returns to
`WAITING_FOR_SPEECH` with both accumulators reset and no fresh recording
started; recording resumes only through the normal
`SPEECH_START_DELAY_MS` sustained-speech path. -/
theorem c6_never_restarts (s : RecorderSt) (now : Nat) (volume : ℚ)
    (wsOpen sendOk : Bool) (h1 : s.onstopSet = true)
    (h2 : s.capturedIsRecording = false) :
    (finalizeStep s now volume wsOpen sendOk).vadState =
      RecordingState.waiting ∧
    (finalizeStep s now volume wsOpen sendOk).consecutiveSpeechTime = 0 ∧
    (finalizeStep s now volume wsOpen sendOk).consecutiveSilenceTime = 0 ∧
    (finalizeStep s now volume wsOpen sendOk).recorderActive =
      s.recorderActive := by
  simp only [finalizeStep, h1, sendAudioChunk, startNewRecording,
    Bool.not_true]
  split_ifs <;> simp_all

/-- Witness for `c6_never_restarts` at the pending max-path finalization
with speech present (volume 0.5). -/
theorem c6_never_restarts_witness :
    c5S3.onstopSet = true ∧ c5S3.capturedIsRecording = false ∧
    (finalizeStep c5S3 30200 vHalf true true).vadState =
      RecordingState.waiting :=
  ⟨by decide, by decide,
    (c6_never_restarts c5S3 30200 vHalf true true (by decide)
      (by decide)).1⟩

/-- Claim C7: while in `RECORDING_SPEECH`, a tick moves the machine to
`CONFIRMING_END` exactly when the time since the last speech sample
(updated to `now` first when the current sample is speech) reaches
`SPEECH_END_DELAY_MS`, or the elapsed recording duration reaches
`MAX_CHUNK_DURATION_MS`; and any speech sample resets the
consecutive-silence accumulator and the last-speech timestamp. -/
theorem c7_recording_exit_condition (s : RecorderSt) (now : Nat)
    (volume : ℚ) (h1 : s.intervalActive = true)
    (h2 : s.vadState = RecordingState.recording) :
    ((tickStep s now volume).vadState = RecordingState.confirmingEnd ↔
      (VAD_CONFIG.SPEECH_END_DELAY_MS ≤
          now - (if volume > VAD_CONFIG.SILENCE_THRESHOLD then now
            else s.lastSpeechTime) ∨
        VAD_CONFIG.MAX_CHUNK_DURATION_MS ≤ now - s.speechStartTime)) ∧
    (volume > VAD_CONFIG.SILENCE_THRESHOLD →
      (tickStep s now volume).consecutiveSilenceTime = 0 ∧
      (tickStep s now volume).lastSpeechTime = now) := by
  simp only [tickStep, h1, h2, Bool.not_true, stopCurrentRecording]
  split_ifs <;> simp_all

/-- Witness for `c7_recording_exit_condition`: the tick at t=30200 of the
45-second run, where the max-duration condition fires. -/
theorem c7_recording_exit_condition_witness :
    c5S2.intervalActive = true ∧
    c5S2.vadState = RecordingState.recording ∧
    ((tickStep c5S2 30200 vHalf).vadState = RecordingState.confirmingEnd ↔
      (VAD_CONFIG.SPEECH_END_DELAY_MS ≤
          30200 - (if vHalf > VAD_CONFIG.SILENCE_THRESHOLD then 30200
            else c5S2.lastSpeechTime) ∨
        VAD_CONFIG.MAX_CHUNK_DURATION_MS ≤ 30200 - c5S2.speechStartTime)) :=
  ⟨by decide, by decide,
    (c7_recording_exit_condition c5S2 30200 vHalf (by decide) (by decide)).1⟩

set_option maxRecDepth 20000 in
/-- Claim C8, counterexample: speech from t=100 keeps a recording in flight
from t=200 (so 4800 ms — far above the 1000 ms minimum — have been recorded
when the user presses stop at t=5000), yet `stopRecording` emits nothing:
no finalize handler was ever attached to the running recorder, so the
in-flight segment is dropped rather than flushed through `ConfirmingEnd`
and submitted. -/
theorem c8_counterexample :
    (runEvents (startRecording initSt) c8CexTrace).emitted = [] ∧
    (runEvents (startRecording initSt) c8CexTrace).chunkCount = 0 ∧
    (runEvents (startRecording initSt) c8CexTrace).onstopSet = false ∧
    (runEvents (startRecording initSt) c8CexTrace).recorderActive = false ∧
    (runEvents (startRecording initSt)
        (c8CexTrace.take (c8CexTrace.length - 1))).recorderActive = true ∧
    (runEvents (startRecording initSt)
        (c8CexTrace.take (c8CexTrace.length - 1))).speechStartTime = 200 := by
  decide

/-! ## Properties of the volume computation -/

/-- Claim C10: for a byte buffer (each value 0..255), `getVolume` is the
mean of `|b - 128| / 128` over the buffer and lies in the closed unit
interval; with no analyzer attached it returns 0, so every volume sample
fed to the VAD loop lies in the normalized 0-1 range that
`SILENCE_THRESHOLD` is compared against. -/
theorem c10_volume_bounds (buf : List Nat) (h : ∀ b ∈ buf, b ≤ 255) :
    getVolume (some buf) =
      ((buf.map (fun b : Nat => |((b : ℚ) - 128)| / 128)).sum) /
        (buf.length : ℚ) ∧
    0 ≤ getVolume (some buf) ∧ getVolume (some buf) ≤ 1 ∧
    getVolume none = 0 := by
  refine ⟨rfl, ?_, ?_, rfl⟩
  · unfold getVolume
    apply div_nonneg
    · apply List.sum_nonneg
      intro x hx
      simp only [List.mem_map] at hx
      obtain ⟨b, _, rfl⟩ := hx
      positivity
    · positivity
  · unfold getVolume
    rcases eq_or_ne buf [] with rfl | hne
    · simp
    · have hlen : 0 < ((buf.length : ℚ)) := by
        exact_mod_cast List.length_pos.mpr hne
      rw [div_le_one hlen]
      calc (buf.map (fun b : Nat => |((b : ℚ) - 128)| / 128)).sum
          ≤ (buf.map (fun b : Nat => |((b : ℚ) - 128)| / 128)).length •
              (1 : ℚ) := by
            apply List.sum_le_card_nsmul
            intro x hx
            obtain ⟨b, hb, rfl⟩ := List.mem_map.mp hx
            rw [div_le_one (by norm_num : (0 : ℚ) < 128)]
            have hble : ((b : ℚ)) ≤ 255 := by exact_mod_cast h b hb
            have hge : (0 : ℚ) ≤ (b : ℚ) := Nat.cast_nonneg b
            rw [abs_le]
            constructor <;> linarith
        _ = buf.length • (1 : ℚ) := by rw [List.length_map]
        _ = (buf.length : ℚ) := by rw [nsmul_eq_mul, mul_one]

/-- Witness for `c10_volume_bounds` on the buffer `[0, 128, 255]`. -/
theorem c10_volume_bounds_witness :
    (∀ b ∈ ([0, 128, 255] : List Nat), b ≤ 255) ∧
    (0 ≤ getVolume (some [0, 128, 255]) ∧
      getVolume (some [0, 128, 255]) ≤ 1 ∧ getVolume none = 0) :=
  ⟨by decide, (c10_volume_bounds [0, 128, 255] (by decide)).2⟩

/-! ## Properties of the keyword matcher -/

/-- Characters of a list of strings, concatenated. -/
def joinedChars (l : List String) : List Char :=
  (l.map String.data).flatten

/-- Unfolding of the `String.mk` constructor. -/
lemma data_mk (l : List Char) : (String.mk l).data = l := rfl

/-- Strings with the same characters are equal. -/
lemma str_eq_of_data {a b : String} (h : a.data = b.data) : a = b := by
  cases a; cases b
  exact congrArg String.mk h

/-- A take-prefix followed by the drop at its actual length restores the
list (the take may be shorter than requested). -/
lemma take_append_drop_len (L : List Char) (m : Nat) :
    L.take m ++ L.drop (L.take m).length = L := by
  induction L generalizing m with
  | nil => simp
  | cons c t ih =>
      cases m with
      | zero => simp
      | succ m => simpa using ih m

/-- A successful split match captures a take-prefix of the tail at `q`. -/
lemma splitMatch_shape {kws : List String} {cs : List Char} {q : Nat}
    {cap : List Char} (h : splitMatch kws cs q = some cap) :
    ∃ k, cap = (cs.drop q).take k := by
  unfold splitMatch at h
  split at h
  · obtain ⟨kw, _, rfl⟩ := Option.map_eq_some'.mp h
    exact ⟨kw.length, rfl⟩
  · cases h

/-- The captured separator glues back onto the rest of the input. -/
lemma cap_append_drop {cs : List Char} {q : Nat} {cap : List Char}
    (h : ∃ k, cap = (cs.drop q).take k) :
    cap ++ cs.drop (q + cap.length) = cs.drop q := by
  obtain ⟨k, rfl⟩ := h
  rw [← List.drop_drop]
  exact take_append_drop_len _ _

/-- Invariant of the split loop: whatever the fuel, the parts produced
concatenate to the pieces already in the accumulator followed by the input
from position `p` on. -/
lemma splitLoop_joined (kws : List String) (cs : List Char) :
    ∀ (fuel p q : Nat) (acc : List String), p ≤ q →
      joinedChars (splitLoop kws cs fuel p q acc) =
        joinedChars acc ++ cs.drop p := by
  intro fuel
  induction fuel with
  | zero =>
      intro p q acc _
      simp [splitLoop, joinedChars]
  | succ fuel ih =>
      intro p q acc hpq
      rw [splitLoop]
      split
      · cases hm : splitMatch kws cs q with
        | none =>
            simp only [hm]
            exact ih p (q + 1) acc (Nat.le_succ_of_le hpq)
        | some cap =>
            simp only [hm]
            by_cases he : q + cap.length = p
            · rw [if_pos he]
              exact ih p (q + 1) acc (Nat.le_succ_of_le hpq)
            · rw [if_neg he]
              rw [ih (q + cap.length) (q + cap.length) _ (Nat.le_refl _)]
              simp only [joinedChars, List.map_append, List.flatten_append,
                List.map_cons, List.flatten_cons, List.map_nil,
                List.flatten_nil, List.append_nil, data_mk,
                List.append_assoc]
              rw [cap_append_drop (splitMatch_shape hm)]
              have hq : cs.drop q = (cs.drop p).drop (q - p) := by
                rw [List.drop_drop]
                congr 1
                omega
              rw [hq, List.take_append_drop]
      · simp [joinedChars]

/-- Dropping the empty parts does not change the concatenation. -/
lemma joinedChars_filter (parts : List String) :
    joinedChars (parts.filter fun part => part.length > 0) =
      joinedChars parts := by
  induction parts with
  | nil => rfl
  | cons a t ih =>
      by_cases h : a.length > 0
      · simp only [List.filter_cons, h, decide_True, if_true, joinedChars,
          List.map_cons, List.flatten_cons] at ih ⊢
        rw [ih]
      · have ha : a.data = [] :=
          List.eq_nil_of_length_eq_zero (Nat.eq_zero_of_not_pos h)
        simp [List.filter_cons, h, joinedChars, ha] at ih ⊢
        exact ih

/-- The characters of `String.join` are the concatenated characters. -/
lemma join_data (l : List String) : (String.join l).data = joinedChars l := by
  have h : ∀ (l : List String) (a : String),
      (List.foldl (fun r s => r ++ s) a l).data = a.data ++ joinedChars l := by
    intro l
    induction l with
    | nil => intro a; simp [joinedChars]
    | cons s t ih =>
        intro a
        rw [List.foldl_cons, ih (a ++ s), String.data_append]
        simp [joinedChars]
    
  simpa [String.join, joinedChars] using h l ""

/-- One escaped character is never empty. -/
lemma escChar_ne_nil (c : Char) : escChar c ≠ [] := by
  unfold escChar
  split <;> simp

/-- The escape of a keyword is empty only for the empty keyword. -/
lemma escapeRegex_eq_empty {k : String} (h : escapeRegex k = "") : k = "" := by
  apply str_eq_of_data
  cases hk : k.data with
  | nil => rfl
  | cons c t =>
      exfalso
      have hd := congrArg String.data h
      simp only [escapeRegex, hk, data_mk, List.map_cons, List.flatten_cons] at hd
      have hd' : escChar c ++ (t.map escChar).flatten = [] := hd
      exact escChar_ne_nil c (List.append_eq_nil.mp hd').1

/-- Folding the join step never shrinks the accumulated pattern. -/
lemma foldl_pattern_len (ks : List String) :
    ∀ acc : String, acc.length ≤
      (ks.foldl (fun a kw => a ++ "|" ++ kw) acc).length := by
  induction ks with
  | nil => intro acc; exact Nat.le_refl _
  | cons kw t ih =>
      intro acc
      refine Nat.le_trans ?_ (ih (acc ++ "|" ++ kw))
      simp only [String.length_append]
      omega

/-- The joined escaped pattern is empty only for the single empty
keyword. -/
lemma keywordPattern_eq_empty {kws : List String} (hne : kws ≠ [])
    (h : keywordPattern kws = "") : kws = [""] := by
  rcases kws with _ | ⟨k, rest⟩
  · exact absurd rfl hne
  rcases rest with _ | ⟨k2, rest⟩
  · have hk : escapeRegex k = "" := by simpa [keywordPattern] using h
    rw [escapeRegex_eq_empty hk]
  · exfalso
    have hpat : keywordPattern (k :: k2 :: rest) =
        (rest.map escapeRegex).foldl (fun a kw => a ++ "|" ++ kw)
          (escapeRegex k ++ "|" ++ escapeRegex k2) := by
      simp [keywordPattern]
    have hlen := foldl_pattern_len (rest.map escapeRegex)
      (escapeRegex k ++ "|" ++ escapeRegex k2)
    have hone : 0 <
        (escapeRegex k ++ "|" ++ escapeRegex k2).length := by
      have hbar : ("|" : String).length = 1 := rfl
      simp only [String.length_append, hbar]
      omega
    have : 0 < (keywordPattern (k :: k2 :: rest)).length := by
      rw [hpat]
      exact Nat.lt_of_lt_of_le hone hlen
    rw [h] at this
    simp at this

/-- Claim C9, counterexample: with the keyword list `[""]` and the empty
text, the early return produces the single part `""` with
`isKeyword = false`, although that part is (case-insensitively) equal to
the keyword `""` — so the "isKeyword iff case-insensitively equal to some
keyword" direction fails at this input. -/
theorem c9_counterexample :
    matchKeywords [""] "" = [⟨"", false, none⟩] ∧
    ¬ (∀ m ∈ matchKeywords [""] "",
        (m.isKeyword = true ↔ ∃ kw ∈ ([""] : List String),
          lowerStr kw = lowerStr m.text)) := by
  constructor
  · decide
  · decide

/-- Claim C9 (amended): for every keyword list and text, concatenating the
`text` fields of the parts returned by `matchKeywords`, in order, yields
exactly the input text; and — except in the degenerate case of an empty
text with the empty string among the keywords, where the early return
labels the single empty part `isKeyword = false` — a returned part has
`isKeyword = true` if and only if it is case-insensitively equal to one of
the keywords. -/
theorem c9_split_preserves_text_and_keyword_iff (kws : List String)
    (text : String) :
    String.join ((matchKeywords kws text).map KeywordMatch.text) = text ∧
    ((text ≠ "" ∨ "" ∉ kws) → ∀ m ∈ matchKeywords kws text,
      (m.isKeyword = true ↔ ∃ kw ∈ kws, lowerStr kw = lowerStr m.text)) := by
  constructor
  · unfold matchKeywords
    split_ifs with h1 h2
    · apply str_eq_of_data
      rw [join_data]
      simp [joinedChars]
    · apply str_eq_of_data
      rw [join_data]
      simp [joinedChars]
    · apply str_eq_of_data
      rw [join_data]
      simp only [List.map_map]
      have hcomp :
          (KeywordMatch.text ∘ fun part =>
            (⟨part, (kws.find? fun kw => lowerStr kw = lowerStr part).isSome,
              kws.find? fun kw => lowerStr kw = lowerStr part⟩ :
                KeywordMatch)) = id := by
        funext part
        rfl
      rw [hcomp, List.map_id, joinedChars_filter,
        splitLoop_joined kws text.data _ 0 0 [] (Nat.le_refl 0)]
      simp [joinedChars]
  · intro hside
    unfold matchKeywords
    split_ifs with h1 h2
    · intro m hm
      simp only [List.mem_singleton] at hm
      subst hm
      simp only [Bool.false_eq_true, false_iff]
      rintro ⟨kw, hkw, heq⟩
      rcases (by simpa using h1 : kws = [] ∨ text = "") with hk | ht
      · subst hk
        cases hkw
      · subst ht
        rcases hside with hn | hn
        · exact hn rfl
        · have hkweq : kw = "" := by
            apply str_eq_of_data
            have hd := congrArg String.data heq
            simpa [lowerStr, List.map_eq_nil_iff] using hd
          exact hn (hkweq ▸ hkw)
    · intro m hm
      simp only [List.mem_singleton] at hm
      subst hm
      have hne : kws ≠ [] := by
        intro hk
        subst hk
        simp at h1
      have htext : text ≠ "" := by
        intro ht
        subst ht
        simp at h1
      have hkws : kws = [""] := keywordPattern_eq_empty hne h2
      subst hkws
      simp only [Bool.false_eq_true, false_iff]
      rintro ⟨kw, hkw, heq⟩
      simp only [List.mem_singleton] at hkw
      subst hkw
      apply htext
      apply str_eq_of_data
      have hd := congrArg String.data heq.symm
      simpa [lowerStr, List.map_eq_nil_iff] using hd
    · intro m hm
      simp only [List.mem_map] at hm
      obtain ⟨part, _, rfl⟩ := hm
      simp only []
      constructor
      · intro hsome
        obtain ⟨kw, hkw, hp⟩ := List.find?_isSome.mp hsome
        exact ⟨kw, hkw, of_decide_eq_true hp⟩
      · rintro ⟨kw, hkw, heq⟩
        exact List.find?_isSome.mpr ⟨kw, hkw, decide_eq_true heq⟩

/-- Witness for `c9_split_preserves_text_and_keyword_iff` at the keyword
"hello" and the text "Hello world". -/
theorem c9_split_preserves_text_and_keyword_iff_witness :
    String.join ((matchKeywords ["hello"] "Hello world").map
      KeywordMatch.text) = "Hello world" ∧
    (∀ m ∈ matchKeywords ["hello"] "Hello world",
      (m.isKeyword = true ↔ ∃ kw ∈ (["hello"] : List String),
        lowerStr kw = lowerStr m.text)) :=
  ⟨(c9_split_preserves_text_and_keyword_iff ["hello"] "Hello world").1,
    (c9_split_preserves_text_and_keyword_iff ["hello"] "Hello world").2
      (Or.inl (by decide))⟩
